import Mathlib

/-!
# Verification of the weekly happiness scorecard engine

A shallow embedding of the core of `src/App.tsx`: the scoring rules, the
streak-based flag detector, the derivation pass (`computeDerivedWeeks`), and
the sanitizer (`parseStoredEntries`) over a model of JSON-like values.
JavaScript numbers are modelled as rationals (every value the engine
compares against is exactly representable); non-finite numbers are modelled
explicitly in the JSON-value type.
-/

namespace Scorecard

/-- One user-editable record per calendar week (`WeekEntry` in the source).
Optional numeric fields are `Option ℚ`; the two red-flag booleans and the
notes field are optional in the TypeScript type. -/
structure WeekEntry where
  weekStart : String
  deepWorkH : Option ℚ
  playH : Option ℚ
  realContactsPerWeek : Option ℚ
  sleepScore : Option ℚ
  alcoholDeviationPerWeek : Option ℚ
  avgStepsPerDay : Option ℚ
  emergencyFundMonths : Option ℚ
  pipelineActionsPerWeek : Option ℚ
  incomeJPY : Option ℚ
  manualRedFlag : Option Bool
  paymentRedFlag : Option Bool
  notes : Option String
deriving DecidableEq, Repr

/-- The three auto-detected flags (`AutoFlags` in the source). -/
structure AutoFlags where
  sleep : Bool
  contacts : Bool
  noIncome : Bool
deriving DecidableEq, Repr

/-- Letter grade. -/
inductive Grade where
  | A
  | B
  | C
deriving DecidableEq, Repr

/-- A week entry enriched with the computed fields (`DerivedWeek` in the
source; the TypeScript intersection `WeekEntry & {...}` is modelled as a
structure holding the entry plus the computed fields). -/
structure DerivedWeek where
  entry : WeekEntry
  totalScore : Nat
  grade : Grade
  emojiLabel : String
  autoFlags : AutoFlags
  overallRedFlag : Bool
deriving DecidableEq, Repr

/-- Source `scoreRules.deepWorkH`. -/
def scoreRules_deepWorkH (value : ℚ) : Nat :=
  if value ≥ 12 then 2 else if value ≥ 6 then 1 else 0

/-- Source `scoreRules.playH`. -/
def scoreRules_playH (value : ℚ) : Nat :=
  if value ≥ 6 then 2 else if value ≥ 2 then 1 else 0

/-- Source `scoreRules.realContactsPerWeek`. -/
def scoreRules_realContactsPerWeek (value : ℚ) : Nat :=
  if value ≥ 1 then 2 else if value ≥ (1 / 2 : ℚ) then 1 else 0

/-- Source `scoreRules.sleepScore`. -/
def scoreRules_sleepScore (value : ℚ) : Nat :=
  if value ≥ 7 then 2 else if value ≥ 5 then 1 else 0

/-- Source `scoreRules.alcoholDeviationPerWeek`. -/
def scoreRules_alcoholDeviationPerWeek (value : ℚ) : Nat :=
  if value = 0 then 2 else if value = 1 then 1 else 0

/-- Source `scoreRules.avgStepsPerDay`. -/
def scoreRules_avgStepsPerDay (value : ℚ) : Nat :=
  if value ≥ 7000 then 2 else if value ≥ 4000 then 1 else 0

/-- Source `scoreRules.emergencyFundMonths`. -/
def scoreRules_emergencyFundMonths (value : ℚ) : Nat :=
  if value ≥ 12 then 2 else if value ≥ 6 then 1 else 0

/-- Source `scoreRules.pipelineActionsPerWeek`. -/
def scoreRules_pipelineActionsPerWeek (value : ℚ) : Nat :=
  if value ≥ 2 then 2 else if value ≥ 1 then 1 else 0

/-- Source `emojiMap`. -/
def emojiMap : Grade → String
  | Grade.A => "🟢A"
  | Grade.B => "🟡B"
  | Grade.C => "🔴C"

/-- Lexicographic (code-point) comparison of character lists. -/
def charListLe : List Char → List Char → Bool
  | [], _ => true
  | _ :: _, [] => false
  | a :: as, b :: bs =>
    if a.toNat < b.toNat then true
    else if b.toNat < a.toNat then false
    else charListLe as bs

/-- Lexicographic string comparison, the order induced by
`a.localeCompare(b)` on the code points. -/
def strLe (a b : String) : Bool :=
  charListLe a.data b.data

/-- The comparator used by `sortEntries`:
`(a, b) => a.weekStart.localeCompare(b.weekStart)`, i.e. ascending
lexicographic comparison of the weekStart strings. -/
def entryLe (a b : WeekEntry) : Bool :=
  strLe a.weekStart b.weekStart

/-- The comparator as a decidable relation. -/
def entryLeP (a b : WeekEntry) : Prop :=
  entryLe a b = true

instance : DecidableRel entryLeP :=
  fun a b => inferInstanceAs (Decidable (entryLe a b = true))

/-- Source `sortEntries`: a stable sort of the entries by
`weekStart` ascending (JavaScript `Array.prototype.sort` is required to be
stable; insertion sort realizes the same stable-sort specification). -/
def sortEntries (entries : List WeekEntry) : List WeekEntry :=
  List.insertionSort entryLeP entries

/-- Helper `valueOrZero` from `computeDerivedWeeks`, modelling `value ?? 0`. -/
def valueOrZero (value : Option ℚ) : ℚ :=
  value.getD 0

/-- The three streak counters threaded through `computeDerivedWeeks`. -/
structure Streaks where
  sleep : Nat
  contacts : Nat
  noIncome : Nat
deriving DecidableEq, Repr

/-- The body of the `map` callback inside `computeDerivedWeeks`: given the
running streak counters and one entry, produce the updated counters and the
derived week. -/
def deriveWeek (st : Streaks) (entry : WeekEntry) : Streaks × DerivedWeek :=
  let scores : List Nat :=
    [scoreRules_deepWorkH (valueOrZero entry.deepWorkH),
     scoreRules_playH (valueOrZero entry.playH),
     scoreRules_realContactsPerWeek (valueOrZero entry.realContactsPerWeek),
     scoreRules_sleepScore (valueOrZero entry.sleepScore),
     scoreRules_alcoholDeviationPerWeek (valueOrZero entry.alcoholDeviationPerWeek),
     scoreRules_avgStepsPerDay (valueOrZero entry.avgStepsPerDay),
     scoreRules_emergencyFundMonths (valueOrZero entry.emergencyFundMonths),
     scoreRules_pipelineActionsPerWeek (valueOrZero entry.pipelineActionsPerWeek)]
  let totalScore := scores.foldl (fun acc current => acc + current) 0
  let baseGrade : Grade :=
    if totalScore ≥ 13 then Grade.A else if totalScore ≥ 8 then Grade.B else Grade.C
  let sleepLow := decide (valueOrZero entry.sleepScore ≤ 4)
  let sleepStreak := if sleepLow then st.sleep + 1 else 0
  let sleepFlag := decide (sleepStreak ≥ 2)
  let contactZero := decide (valueOrZero entry.realContactsPerWeek ≤ 0)
  let contactStreak := if contactZero then st.contacts + 1 else 0
  let contactFlag := decide (contactStreak ≥ 2)
  let incomeZero := decide (valueOrZero entry.incomeJPY ≤ 0)
  let noIncomeStreak := if incomeZero then st.noIncome + 1 else 0
  let noIncomeFlag := decide (noIncomeStreak ≥ 8)
  let autoFlags : AutoFlags :=
    { sleep := sleepFlag, contacts := contactFlag, noIncome := noIncomeFlag }
  let overallRedFlag :=
    (entry.manualRedFlag == some true) || (entry.paymentRedFlag == some true) ||
      (autoFlags.sleep || autoFlags.contacts || autoFlags.noIncome)
  let grade : Grade := if overallRedFlag then Grade.C else baseGrade
  let emojiLabel := if overallRedFlag then emojiMap Grade.C else emojiMap baseGrade
  (⟨sleepStreak, contactStreak, noIncomeStreak⟩,
   { entry := entry
     totalScore := totalScore
     grade := grade
     emojiLabel := emojiLabel
     autoFlags := autoFlags
     overallRedFlag := overallRedFlag })

/-- The `map` of `computeDerivedWeeks` with the mutable streak counters made
an explicit accumulator. -/
def deriveFrom (st : Streaks) : List WeekEntry → List DerivedWeek
  | [] => []
  | e :: rest =>
    let p := deriveWeek st e
    p.2 :: deriveFrom p.1 rest

/-- Source `computeDerivedWeeks`: sort, then one left-to-right pass
with the three counters starting at 0. -/
def computeDerivedWeeks (entries : List WeekEntry) : List DerivedWeek :=
  deriveFrom ⟨0, 0, 0⟩ (sortEntries entries)

/-- The failure condition of the sleep streak: that week's sleep score
(absence-as-zero) is ≤ 4. -/
def sleepLowWeek (e : WeekEntry) : Bool :=
  decide (valueOrZero e.sleepScore ≤ 4)

/-- The failure condition of the contact streak: real contacts
(absence-as-zero) ≤ 0. -/
def contactZeroWeek (e : WeekEntry) : Bool :=
  decide (valueOrZero e.realContactsPerWeek ≤ 0)

/-- The failure condition of the no-income streak: income
(absence-as-zero) ≤ 0. -/
def incomeZeroWeek (e : WeekEntry) : Bool :=
  decide (valueOrZero e.incomeJPY ≤ 0)

/-- Length of the run of consecutive elements satisfying `cond` ending at
the end of the list (0 when the last element fails `cond`). -/
def tailRun {α : Type} (cond : α → Bool) (l : List α) : Nat :=
  (l.reverse.takeWhile cond).length

/-! ## Model of JavaScript values for the sanitizer -/

/-- A JavaScript number: either a finite value (modelled as a rational) or
one of the non-finite values. -/
inductive JSNum where
  | finite (q : ℚ)
  | nan
  | posInf
  | negInf
deriving DecidableEq, Repr

/-- A JavaScript/JSON value as seen by `parseStoredEntries`. -/
inductive JSValue where
  | undefined
  | null
  | bool (b : Bool)
  | num (n : JSNum)
  | str (s : String)
  | arr (items : List JSValue)
  | obj (fields : List (String × JSValue))
deriving Repr

/-- JavaScript truthiness (`Boolean(value)` / `!value`). -/
def truthy : JSValue → Bool
  | JSValue.undefined => false
  | JSValue.null => false
  | JSValue.bool b => b
  | JSValue.num (JSNum.finite q) => decide (q ≠ 0)
  | JSValue.num JSNum.nan => false
  | JSValue.num JSNum.posInf => true
  | JSValue.num JSNum.negInf => true
  | JSValue.str s => decide (s ≠ "")
  | JSValue.arr _ => true
  | JSValue.obj _ => true

/-- Test for `typeof value === "object"` (true for `null`, arrays and objects). -/
def isObjectType : JSValue → Bool
  | JSValue.null => true
  | JSValue.arr _ => true
  | JSValue.obj _ => true
  | _ => false

/-- Property access `value[name]`: defined field of an object, `undefined`
otherwise (JSON arrays carry no named fields). -/
def getField (v : JSValue) (name : String) : JSValue :=
  match v with
  | JSValue.obj fields =>
    match fields.find? (fun f => f.1 == name) with
    | some f => f.2
    | none => JSValue.undefined
  | _ => JSValue.undefined

/-- JavaScript `String.prototype.trim`: strip leading and trailing
whitespace. -/
def jsTrim (s : String) : String :=
  ⟨((s.data.dropWhile Char.isWhitespace).reverse.dropWhile Char.isWhitespace).reverse⟩

/-- JavaScript `String.prototype.toLowerCase` (ASCII model). -/
def jsToLower (s : String) : String :=
  ⟨s.data.map Char.toLower⟩

/-- Source `toNumericValue`. The JavaScript `Number(string)`
conversion is modelled by the parameter `numParse`; the structure around it
(null/undefined, finiteness check, trim, empty-string check) is the
source's. -/
def toNumericValue (numParse : String → JSNum) (value : JSValue) : Option ℚ :=
  match value with
  | JSValue.null => none
  | JSValue.undefined => none
  | JSValue.num n =>
    match n with
    | JSNum.finite q => some q
    | _ => none
  | JSValue.str s =>
    let trimmed := jsTrim s
    if trimmed = "" then none
    else
      match numParse trimmed with
      | JSNum.finite q => some q
      | _ => none
  | _ => none

/-- Source `toBooleanValue`. -/
def toBooleanValue (value : JSValue) : Bool :=
  match value with
  | JSValue.bool b => b
  | JSValue.str s =>
    let normalized := jsToLower (jsTrim s)
    if normalized = "true" then true
    else if normalized = "false" then false
    else truthy (JSValue.str s)
  | v => truthy v

/-- The per-element body of the loop in `parseStoredEntries`: `none` models
the early `return null`, `some` the entry pushed onto `sanitized`. -/
def sanitizeItem (numParse : String → JSNum) (item : JSValue) : Option WeekEntry :=
  if !truthy item || !isObjectType item then none
  else
    match getField item "weekStart" with
    | JSValue.str weekStart =>
      some
        { weekStart := weekStart
          deepWorkH := toNumericValue numParse (getField item "deepWorkH")
          playH := toNumericValue numParse (getField item "playH")
          realContactsPerWeek := toNumericValue numParse (getField item "realContactsPerWeek")
          sleepScore := toNumericValue numParse (getField item "sleepScore")
          alcoholDeviationPerWeek := toNumericValue numParse (getField item "alcoholDeviationPerWeek")
          avgStepsPerDay := toNumericValue numParse (getField item "avgStepsPerDay")
          emergencyFundMonths := toNumericValue numParse (getField item "emergencyFundMonths")
          pipelineActionsPerWeek := toNumericValue numParse (getField item "pipelineActionsPerWeek")
          incomeJPY := toNumericValue numParse (getField item "incomeJPY")
          manualRedFlag := some (toBooleanValue (getField item "manualRedFlag"))
          paymentRedFlag := some (toBooleanValue (getField item "paymentRedFlag"))
          notes :=
            some
              (match getField item "notes" with
               | JSValue.str s => s
               | _ => "") }
    | _ => none

/-- The sanitizing loop of `parseStoredEntries`: all-or-nothing over the
elements (`none` models the early `return null`). -/
def sanitizeAll (numParse : String → JSNum) : List JSValue → Option (List WeekEntry)
  | [] => some []
  | item :: rest =>
    match sanitizeItem numParse item with
    | none => none
    | some e =>
      match sanitizeAll numParse rest with
      | none => none
      | some es => some (e :: es)

/-- Source `parseStoredEntries`: reject unless the input is an
array; sanitize every element all-or-nothing; sort the result. -/
def parseStoredEntries (numParse : String → JSNum) (raw : JSValue) :
    Option (List WeekEntry) :=
  match raw with
  | JSValue.arr items => (sanitizeAll numParse items).map sortEntries
  | _ => none

/-! ## Serialization (for the round-trip property) and handler models -/

/-- One numeric field of `JSON.stringify` output: present iff the value is
present (`JSON.stringify` omits keys whose value is `undefined`). -/
def numFieldJS (name : String) (v : Option ℚ) : List (String × JSValue) :=
  match v with
  | some q => [(name, JSValue.num (JSNum.finite q))]
  | none => []

/-- One boolean field of `JSON.stringify` output. -/
def boolFieldJS (name : String) (v : Option Bool) : List (String × JSValue) :=
  match v with
  | some b => [(name, JSValue.bool b)]
  | none => []

/-- One string field of `JSON.stringify` output. -/
def strFieldJS (name : String) (v : Option String) : List (String × JSValue) :=
  match v with
  | some s => [(name, JSValue.str s)]
  | none => []

/-- Image of a well-typed `WeekEntry` under `JSON.parse(JSON.stringify(entry))`. -/
def entryToJS (e : WeekEntry) : JSValue :=
  JSValue.obj
    (("weekStart", JSValue.str e.weekStart) ::
      (numFieldJS "deepWorkH" e.deepWorkH ++
       numFieldJS "playH" e.playH ++
       numFieldJS "realContactsPerWeek" e.realContactsPerWeek ++
       numFieldJS "sleepScore" e.sleepScore ++
       numFieldJS "alcoholDeviationPerWeek" e.alcoholDeviationPerWeek ++
       numFieldJS "avgStepsPerDay" e.avgStepsPerDay ++
       numFieldJS "emergencyFundMonths" e.emergencyFundMonths ++
       numFieldJS "pipelineActionsPerWeek" e.pipelineActionsPerWeek ++
       numFieldJS "incomeJPY" e.incomeJPY ++
       boolFieldJS "manualRedFlag" e.manualRedFlag ++
       boolFieldJS "paymentRedFlag" e.paymentRedFlag ++
       strFieldJS "notes" e.notes))

/-- Normalization of absent fields performed by the sanitizer: absent
numerics stay absent, absent booleans become `false`, absent notes become
the empty string. -/
def normalizeEntry (e : WeekEntry) : WeekEntry :=
  { e with
    manualRedFlag := some (e.manualRedFlag.getD false)
    paymentRedFlag := some (e.paymentRedFlag.getD false)
    notes := some (e.notes.getD "") }

/-- Source `handleDeleteEntry`: a no-op when at most one entry is
held, otherwise remove the indexed entry and re-sort. -/
def handleDeleteEntry (entries : List WeekEntry) (index : Nat) : List WeekEntry :=
  if entries.length ≤ 1 then entries
  else sortEntries (entries.eraseIdx index)

/-- Source `handleImport`, given the already-JSON-parsed file
content: on sanitizer rejection the state is unchanged (the thrown error is
caught and only an error message is shown); on success the state becomes
the sanitized list, with no emptiness check. -/
def handleImport (entries : List WeekEntry) (numParse : String → JSNum)
    (parsed : JSValue) : List WeekEntry :=
  match parseStoredEntries numParse parsed with
  | none => entries
  | some sanitized => sanitized

/-- Source `loadEntries`, given the already-JSON-parsed stored
value (`none` models a missing key or a JSON parse error, both of which
fall back to the default) and the fresh default entry
(`createEmptyEntry()`, whose `weekStart` depends on the current date). -/
def loadEntries (numParse : String → JSNum) (defaultEntry : WeekEntry)
    (stored : Option JSValue) : List WeekEntry :=
  match stored with
  | none => [defaultEntry]
  | some parsed =>
    match parseStoredEntries numParse parsed with
    | none => [defaultEntry]
    | some sanitized =>
      if sanitized.length = 0 then [defaultEntry] else sortEntries sanitized

/-! ## Helper lemmas -/

theorem charListLe_refl : ∀ a, charListLe a a = true
  | [] => rfl
  | _ :: as => by simp [charListLe, charListLe_refl as]

theorem charListLe_total : ∀ a b, charListLe a b = true ∨ charListLe b a = true
  | [], _ => Or.inl rfl
  | _ :: _, [] => Or.inr rfl
  | a :: as, b :: bs => by
    rcases Nat.lt_trichotomy a.toNat b.toNat with h | h | h
    · exact Or.inl (by simp [charListLe, h])
    · rcases charListLe_total as bs with ih | ih
      · exact Or.inl (by simp [charListLe, h, ih])
      · exact Or.inr (by simp [charListLe, h, ih])
    · exact Or.inr (by simp [charListLe, h])

theorem charListLe_trans : ∀ a b c, charListLe a b = true → charListLe b c = true →
    charListLe a c = true
  | [], _, _, _, _ => rfl
  | _ :: _, [], _, h, _ => by simp [charListLe] at h
  | _ :: _, _ :: _, [], _, h => by simp [charListLe] at h
  | a :: as, b :: bs, c :: cs, h1, h2 => by
    simp only [charListLe] at h1 h2 ⊢
    rcases Nat.lt_trichotomy a.toNat b.toNat with hab | hab | hab
    · rcases Nat.lt_trichotomy b.toNat c.toNat with hbc | hbc | hbc
      · simp [Nat.lt_trans hab hbc]
      · simp [hbc ▸ hab]
      · simp only [if_neg (Nat.lt_asymm hbc), if_pos hbc] at h2
        exact absurd h2 (by simp)
    · rcases Nat.lt_trichotomy b.toNat c.toNat with hbc | hbc | hbc
      · simp [hab ▸ hbc]
      · have hac : a.toNat = c.toNat := hab.trans hbc
        simp only [if_neg (by omega : ¬ a.toNat < b.toNat),
          if_neg (by omega : ¬ b.toNat < a.toNat)] at h1
        simp only [if_neg (by omega : ¬ b.toNat < c.toNat),
          if_neg (by omega : ¬ c.toNat < b.toNat)] at h2
        simp only [if_neg (by omega : ¬ a.toNat < c.toNat),
          if_neg (by omega : ¬ c.toNat < a.toNat)]
        exact charListLe_trans as bs cs h1 h2
      · simp only [if_neg (Nat.lt_asymm hbc), if_pos hbc] at h2
        exact absurd h2 (by simp)
    · simp only [if_neg (Nat.lt_asymm hab), if_pos hab] at h1
      exact absurd h1 (by simp)

instance : IsTrans WeekEntry entryLeP :=
  ⟨fun _ _ _ h1 h2 => charListLe_trans _ _ _ h1 h2⟩

instance : IsTotal WeekEntry entryLeP :=
  ⟨fun a b => charListLe_total a.weekStart.data b.weekStart.data⟩

instance : IsRefl WeekEntry entryLeP :=
  ⟨fun a => charListLe_refl a.weekStart.data⟩

theorem deriveFrom_nil (st : Streaks) : deriveFrom st [] = [] :=
  rfl

theorem deriveFrom_cons (st : Streaks) (e : WeekEntry) (t : List WeekEntry) :
    deriveFrom st (e :: t) = (deriveWeek st e).2 :: deriveFrom (deriveWeek st e).1 t :=
  rfl

theorem length_deriveFrom : ∀ (st : Streaks) (l : List WeekEntry),
    (deriveFrom st l).length = l.length
  | _, [] => rfl
  | st, e :: t => by
    rw [deriveFrom_cons, List.length_cons, List.length_cons,
      length_deriveFrom (deriveWeek st e).1 t]

theorem entry_deriveWeek (st : Streaks) (e : WeekEntry) :
    (deriveWeek st e).2.entry = e :=
  rfl

theorem map_entry_deriveFrom : ∀ (st : Streaks) (l : List WeekEntry),
    (deriveFrom st l).map DerivedWeek.entry = l
  | _, [] => rfl
  | st, e :: t => by
    rw [deriveFrom_cons, List.map_cons, entry_deriveWeek,
      map_entry_deriveFrom (deriveWeek st e).1 t]

theorem mem_deriveFrom : ∀ (st : Streaks) (l : List WeekEntry) (d : DerivedWeek),
    d ∈ deriveFrom st l → ∃ st₂ e, e ∈ l ∧ d = (deriveWeek st₂ e).2
  | _, [], d, hd => absurd (deriveFrom_nil _ ▸ hd) (List.not_mem_nil d)
  | st, e :: t, d, hd => by
    rw [deriveFrom_cons] at hd
    rcases List.mem_cons.mp hd with h | h
    · exact ⟨st, e, List.mem_cons_self e t, h⟩
    · rcases mem_deriveFrom (deriveWeek st e).1 t d h with ⟨st₂, e₂, he₂, hde⟩
      exact ⟨st₂, e₂, List.mem_cons_of_mem e he₂, hde⟩

/-- One step of a streak counter: increment while the failure condition
holds, reset to 0 otherwise. -/
def streakStep {α : Type} (cond : α → Bool) (acc : Nat) (a : α) : Nat :=
  if cond a then acc + 1 else 0

theorem tailRun_concat {α : Type} (cond : α → Bool) (l : List α) (e : α) :
    tailRun cond (l ++ [e]) = if cond e then tailRun cond l + 1 else 0 := by
  simp only [tailRun, List.reverse_append, List.reverse_singleton, List.singleton_append,
    List.takeWhile_cons]
  cases h : cond e <;> simp

theorem foldl_streakStep_eq_tailRun {α : Type} (cond : α → Bool) (l : List α) :
    l.foldl (streakStep cond) 0 = tailRun cond l := by
  induction l using List.reverseRecOn with
  | nil => rfl
  | append_singleton l e ih =>
    rw [List.foldl_append, List.foldl_cons, List.foldl_nil, tailRun_concat, ← ih]
    rfl

theorem deriveFrom_flag (cond : WeekEntry → Bool) (k : Nat)
    (selSt : Streaks → Nat) (selFlag : DerivedWeek → Bool)
    (hst : ∀ st e, selSt (deriveWeek st e).1 = streakStep cond (selSt st) e)
    (hfl : ∀ st e, selFlag (deriveWeek st e).2 = decide (k ≤ streakStep cond (selSt st) e)) :
    ∀ (l : List WeekEntry) (st : Streaks) (i : Nat) (h : i < (deriveFrom st l).length),
      selFlag ((deriveFrom st l).get ⟨i, h⟩) =
        decide (k ≤ (l.take (i + 1)).foldl (streakStep cond) (selSt st))
  | [], _, i, h => by
    rw [deriveFrom_nil] at h
    exact absurd h (Nat.not_lt_zero i)
  | e :: t, st, 0, h => by
    have hget : (deriveFrom st (e :: t)).get ⟨0, h⟩ = (deriveWeek st e).2 := rfl
    rw [hget, List.take_succ_cons, List.take_zero, List.foldl_cons, List.foldl_nil]
    exact hfl st e
  | e :: t, st, i + 1, h => by
    have h₂ : i < (deriveFrom (deriveWeek st e).1 t).length := by
      have := h
      rw [deriveFrom_cons, List.length_cons] at this
      exact Nat.lt_of_succ_lt_succ this
    have hget : (deriveFrom st (e :: t)).get ⟨i + 1, h⟩ =
        (deriveFrom (deriveWeek st e).1 t).get ⟨i, h₂⟩ := rfl
    rw [hget, deriveFrom_flag cond k selSt selFlag hst hfl t (deriveWeek st e).1 i h₂,
      List.take_succ_cons, List.foldl_cons, ← hst st e]

theorem streaks_zero_sleep : Streaks.sleep ⟨0, 0, 0⟩ = 0 :=
  rfl

theorem streaks_zero_contacts : Streaks.contacts ⟨0, 0, 0⟩ = 0 :=
  rfl

theorem streaks_zero_noIncome : Streaks.noIncome ⟨0, 0, 0⟩ = 0 :=
  rfl

/-! ## Claims -/

/-- C1: in the sorted chronological pass of `computeDerivedWeeks`, each
auto-flag at week `i` is true exactly when the run of consecutive weeks
satisfying that flag's failure condition ending at week `i` has length at
least the flag's threshold: 2 for sleep (score ≤ 4), 2 for contacts
(≤ 0), 8 for no-income (≤ 0); each counter resets on the first
non-failing week, which the run-length formulation captures. -/
theorem c1_auto_flags_are_run_lengths (entries : List WeekEntry) (i : Nat)
    (h : i < (computeDerivedWeeks entries).length) :
    ((computeDerivedWeeks entries).get ⟨i, h⟩).autoFlags.sleep
        = decide (2 ≤ tailRun sleepLowWeek ((sortEntries entries).take (i + 1)))
    ∧ ((computeDerivedWeeks entries).get ⟨i, h⟩).autoFlags.contacts
        = decide (2 ≤ tailRun contactZeroWeek ((sortEntries entries).take (i + 1)))
    ∧ ((computeDerivedWeeks entries).get ⟨i, h⟩).autoFlags.noIncome
        = decide (8 ≤ tailRun incomeZeroWeek ((sortEntries entries).take (i + 1))) := by
  have hs := deriveFrom_flag sleepLowWeek 2 Streaks.sleep (fun d => d.autoFlags.sleep)
    (fun _ _ => rfl) (fun _ _ => rfl) (sortEntries entries) ⟨0, 0, 0⟩ i h
  have hc := deriveFrom_flag contactZeroWeek 2 Streaks.contacts (fun d => d.autoFlags.contacts)
    (fun _ _ => rfl) (fun _ _ => rfl) (sortEntries entries) ⟨0, 0, 0⟩ i h
  have hn := deriveFrom_flag incomeZeroWeek 8 Streaks.noIncome (fun d => d.autoFlags.noIncome)
    (fun _ _ => rfl) (fun _ _ => rfl) (sortEntries entries) ⟨0, 0, 0⟩ i h
  rw [streaks_zero_sleep, foldl_streakStep_eq_tailRun] at hs
  rw [streaks_zero_contacts, foldl_streakStep_eq_tailRun] at hc
  rw [streaks_zero_noIncome, foldl_streakStep_eq_tailRun] at hn
  exact ⟨hs, hc, hn⟩

/-- A concrete entry with every metric at the top tier and positive
income. -/
def topEntry (w : String) : WeekEntry :=
  { weekStart := w, deepWorkH := some 12, playH := some 6,
    realContactsPerWeek := some 1, sleepScore := some 7,
    alcoholDeviationPerWeek := some 0, avgStepsPerDay := some 7000,
    emergencyFundMonths := some 12, pipelineActionsPerWeek := some 2,
    incomeJPY := some 100000, manualRedFlag := some false,
    paymentRedFlag := some false, notes := some "" }

/-- Two consecutive low-sleep weeks. -/
def twoLowSleepWeeks : List WeekEntry :=
  [{ topEntry "2024-01-01" with sleepScore := some 4 },
   { topEntry "2024-01-08" with sleepScore := some 4 }]

/-- Witness for C1 at a concrete input: two consecutive low-sleep weeks,
checked at the second week. -/
theorem c1_witness :
    ((computeDerivedWeeks twoLowSleepWeeks).get ⟨1, by decide⟩).autoFlags.sleep
        = decide (2 ≤ tailRun sleepLowWeek ((sortEntries twoLowSleepWeeks).take 2))
    ∧ ((computeDerivedWeeks twoLowSleepWeeks).get ⟨1, by decide⟩).autoFlags.contacts
        = decide (2 ≤ tailRun contactZeroWeek ((sortEntries twoLowSleepWeeks).take 2))
    ∧ ((computeDerivedWeeks twoLowSleepWeeks).get ⟨1, by decide⟩).autoFlags.noIncome
        = decide (8 ≤ tailRun incomeZeroWeek ((sortEntries twoLowSleepWeeks).take 2)) :=
  c1_auto_flags_are_run_lengths twoLowSleepWeeks 1 (by decide)

/-- C8: `computeDerivedWeeks` produces a parallel sequence: same length as
the input, and the i-th output's entry fields are exactly the i-th entry
of the sorted input — computed fields are added, nothing is altered or
dropped. -/
theorem c8_derive_preserves_entries (entries : List WeekEntry) :
    (computeDerivedWeeks entries).length = entries.length
    ∧ (computeDerivedWeeks entries).map DerivedWeek.entry = sortEntries entries := by
  constructor
  · rw [computeDerivedWeeks, length_deriveFrom, sortEntries, List.length_insertionSort]
  · rw [computeDerivedWeeks, map_entry_deriveFrom]

/-- C6: `computeDerivedWeeks` is deterministic (two runs on the same input
are identical — no hidden state survives a full derivation) and
sort-stable (on an already-sorted input the output records are in the
input's order). -/
theorem c6_deterministic_and_sort_stable (entries : List WeekEntry) :
    computeDerivedWeeks entries = computeDerivedWeeks entries
    ∧ (entries.Pairwise entryLeP →
        (computeDerivedWeeks entries).map DerivedWeek.entry = entries) := by
  refine ⟨rfl, fun hsorted => ?_⟩
  rw [computeDerivedWeeks, map_entry_deriveFrom, sortEntries,
    List.Sorted.insertionSort_eq hsorted]

/-- Witness for C6 at a concrete sorted two-entry input. -/
theorem c6_witness :
    computeDerivedWeeks twoLowSleepWeeks = computeDerivedWeeks twoLowSleepWeeks
    ∧ (computeDerivedWeeks twoLowSleepWeeks).map DerivedWeek.entry = twoLowSleepWeeks :=
  ⟨(c6_deterministic_and_sort_stable twoLowSleepWeeks).1,
   (c6_deterministic_and_sort_stable twoLowSleepWeeks).2 (by decide)⟩

theorem deriveWeek_totalScore (st : Streaks) (e : WeekEntry) :
    (deriveWeek st e).2.totalScore =
      0 + scoreRules_deepWorkH (valueOrZero e.deepWorkH)
        + scoreRules_playH (valueOrZero e.playH)
        + scoreRules_realContactsPerWeek (valueOrZero e.realContactsPerWeek)
        + scoreRules_sleepScore (valueOrZero e.sleepScore)
        + scoreRules_alcoholDeviationPerWeek (valueOrZero e.alcoholDeviationPerWeek)
        + scoreRules_avgStepsPerDay (valueOrZero e.avgStepsPerDay)
        + scoreRules_emergencyFundMonths (valueOrZero e.emergencyFundMonths)
        + scoreRules_pipelineActionsPerWeek (valueOrZero e.pipelineActionsPerWeek) :=
  rfl

theorem deriveWeek_overall (st : Streaks) (e : WeekEntry) :
    (deriveWeek st e).2.overallRedFlag =
      ((e.manualRedFlag == some true) || (e.paymentRedFlag == some true) ||
        ((deriveWeek st e).2.autoFlags.sleep || (deriveWeek st e).2.autoFlags.contacts ||
          (deriveWeek st e).2.autoFlags.noIncome)) :=
  rfl

theorem deriveWeek_grade (st : Streaks) (e : WeekEntry) :
    (deriveWeek st e).2.grade =
      (if (deriveWeek st e).2.overallRedFlag then Grade.C
       else if (deriveWeek st e).2.totalScore ≥ 13 then Grade.A
       else if (deriveWeek st e).2.totalScore ≥ 8 then Grade.B
       else Grade.C) :=
  rfl

theorem deriveWeek_emoji (st : Streaks) (e : WeekEntry) :
    (deriveWeek st e).2.emojiLabel =
      (if (deriveWeek st e).2.overallRedFlag then emojiMap Grade.C
       else emojiMap
         (if (deriveWeek st e).2.totalScore ≥ 13 then Grade.A
          else if (deriveWeek st e).2.totalScore ≥ 8 then Grade.B
          else Grade.C)) :=
  rfl

theorem ite_score_le_two (c₁ c₂ : Prop) [Decidable c₁] [Decidable c₂] :
    (if c₁ then 2 else if c₂ then 1 else 0) ≤ 2 := by
  split_ifs <;> omega

/-- C2: every derived week has `totalScore` in [0,16]; `overallRedFlag`
holds exactly when the manual flag, the payment flag, or one of the three
auto-flags holds; the grade is A iff score ≥ 13 with no flag, B iff
8 ≤ score < 13 with no flag, C otherwise; and a raised flag forces the
emoji label of grade C. -/
theorem c2_score_grade_flag (entries : List WeekEntry) (d : DerivedWeek)
    (hd : d ∈ computeDerivedWeeks entries) :
    (0 ≤ d.totalScore ∧ d.totalScore ≤ 16)
    ∧ (d.overallRedFlag = true ↔
        (d.entry.manualRedFlag = some true ∨ d.entry.paymentRedFlag = some true ∨
          d.autoFlags.sleep = true ∨ d.autoFlags.contacts = true ∨
          d.autoFlags.noIncome = true))
    ∧ (d.grade = Grade.A ↔ (13 ≤ d.totalScore ∧ d.overallRedFlag = false))
    ∧ (d.grade = Grade.B ↔
        (8 ≤ d.totalScore ∧ d.totalScore < 13 ∧ d.overallRedFlag = false))
    ∧ (d.grade = Grade.C ↔ (d.totalScore < 8 ∨ d.overallRedFlag = true))
    ∧ (d.overallRedFlag = true → d.emojiLabel = emojiMap Grade.C) := by
  obtain ⟨st, e, -, rfl⟩ := mem_deriveFrom _ _ d hd
  refine ⟨⟨Nat.zero_le _, ?_⟩, ?_, ?_, ?_, ?_, ?_⟩
  · rw [deriveWeek_totalScore]
    have h1 : scoreRules_deepWorkH (valueOrZero e.deepWorkH) ≤ 2 := ite_score_le_two _ _
    have h2 : scoreRules_playH (valueOrZero e.playH) ≤ 2 := ite_score_le_two _ _
    have h3 : scoreRules_realContactsPerWeek (valueOrZero e.realContactsPerWeek) ≤ 2 :=
      ite_score_le_two _ _
    have h4 : scoreRules_sleepScore (valueOrZero e.sleepScore) ≤ 2 := ite_score_le_two _ _
    have h5 : scoreRules_alcoholDeviationPerWeek (valueOrZero e.alcoholDeviationPerWeek) ≤ 2 :=
      ite_score_le_two _ _
    have h6 : scoreRules_avgStepsPerDay (valueOrZero e.avgStepsPerDay) ≤ 2 :=
      ite_score_le_two _ _
    have h7 : scoreRules_emergencyFundMonths (valueOrZero e.emergencyFundMonths) ≤ 2 :=
      ite_score_le_two _ _
    have h8 : scoreRules_pipelineActionsPerWeek (valueOrZero e.pipelineActionsPerWeek) ≤ 2 :=
      ite_score_le_two _ _
    omega
  · rw [deriveWeek_overall, entry_deriveWeek]
    simp [Bool.or_eq_true, beq_iff_eq, or_assoc]
  · rw [deriveWeek_grade]
    generalize (deriveWeek st e).2.overallRedFlag = F
    generalize (deriveWeek st e).2.totalScore = T
    cases F <;> split_ifs <;> simp_all
  · rw [deriveWeek_grade]
    generalize (deriveWeek st e).2.overallRedFlag = F
    generalize (deriveWeek st e).2.totalScore = T
    cases F <;> split_ifs <;> simp_all
  · rw [deriveWeek_grade]
    generalize (deriveWeek st e).2.overallRedFlag = F
    generalize (deriveWeek st e).2.totalScore = T
    cases F
    · split_ifs <;> simp_all <;> omega
    · simp
  · intro hF
    rw [deriveWeek_emoji, hF]
    simp

/-- The single derived week of `[topEntry "2024-01-01"]`. -/
def c2Derived : DerivedWeek :=
  { entry := topEntry "2024-01-01", totalScore := 16, grade := Grade.A,
    emojiLabel := "🟢A", autoFlags := ⟨false, false, false⟩,
    overallRedFlag := false }

/-- Witness for C2 at a concrete one-entry input. -/
theorem c2_witness :
    (0 ≤ c2Derived.totalScore ∧ c2Derived.totalScore ≤ 16)
    ∧ (c2Derived.overallRedFlag = true ↔
        (c2Derived.entry.manualRedFlag = some true ∨
          c2Derived.entry.paymentRedFlag = some true ∨
          c2Derived.autoFlags.sleep = true ∨ c2Derived.autoFlags.contacts = true ∨
          c2Derived.autoFlags.noIncome = true))
    ∧ (c2Derived.grade = Grade.A ↔ (13 ≤ c2Derived.totalScore ∧ c2Derived.overallRedFlag = false))
    ∧ (c2Derived.grade = Grade.B ↔
        (8 ≤ c2Derived.totalScore ∧ c2Derived.totalScore < 13 ∧
          c2Derived.overallRedFlag = false))
    ∧ (c2Derived.grade = Grade.C ↔ (c2Derived.totalScore < 8 ∨ c2Derived.overallRedFlag = true))
    ∧ (c2Derived.overallRedFlag = true → c2Derived.emojiLabel = emojiMap Grade.C) :=
  c2_score_grade_flag [topEntry "2024-01-01"] c2Derived (by decide)

/-- The `scores` array built inside `computeDerivedWeeks` for one entry
(absence-as-zero applied to each of the eight scored metrics). -/
def weekSubScores (e : WeekEntry) : List Nat :=
  [scoreRules_deepWorkH (valueOrZero e.deepWorkH),
   scoreRules_playH (valueOrZero e.playH),
   scoreRules_realContactsPerWeek (valueOrZero e.realContactsPerWeek),
   scoreRules_sleepScore (valueOrZero e.sleepScore),
   scoreRules_alcoholDeviationPerWeek (valueOrZero e.alcoholDeviationPerWeek),
   scoreRules_avgStepsPerDay (valueOrZero e.avgStepsPerDay),
   scoreRules_emergencyFundMonths (valueOrZero e.emergencyFundMonths),
   scoreRules_pipelineActionsPerWeek (valueOrZero e.pipelineActionsPerWeek)]

/-- Replace every absent scored metric by an explicit zero. -/
def fillAbsentZero (e : WeekEntry) : WeekEntry :=
  { e with
    deepWorkH := some (valueOrZero e.deepWorkH)
    playH := some (valueOrZero e.playH)
    realContactsPerWeek := some (valueOrZero e.realContactsPerWeek)
    sleepScore := some (valueOrZero e.sleepScore)
    alcoholDeviationPerWeek := some (valueOrZero e.alcoholDeviationPerWeek)
    avgStepsPerDay := some (valueOrZero e.avgStepsPerDay)
    emergencyFundMonths := some (valueOrZero e.emergencyFundMonths)
    pipelineActionsPerWeek := some (valueOrZero e.pipelineActionsPerWeek) }

/-- C3: each of the eight sub-scores equals its table value with inclusive
(≥) thresholds; an absent metric scores identically to an explicit zero;
`totalScore` is the sum of exactly these eight sub-scores; and `incomeJPY`
contributes nothing to `totalScore`. -/
theorem c3_scoring_table (st : Streaks) (e : WeekEntry) (v : Option ℚ) :
    (∀ q : ℚ, scoreRules_deepWorkH q = if 12 ≤ q then 2 else if 6 ≤ q then 1 else 0)
    ∧ (∀ q : ℚ, scoreRules_playH q = if 6 ≤ q then 2 else if 2 ≤ q then 1 else 0)
    ∧ (∀ q : ℚ, scoreRules_realContactsPerWeek q =
        if 1 ≤ q then 2 else if (0.5 : ℚ) ≤ q then 1 else 0)
    ∧ (∀ q : ℚ, scoreRules_sleepScore q = if 7 ≤ q then 2 else if 5 ≤ q then 1 else 0)
    ∧ (∀ q : ℚ, scoreRules_alcoholDeviationPerWeek q =
        if q = 0 then 2 else if q = 1 then 1 else 0)
    ∧ (∀ q : ℚ, scoreRules_avgStepsPerDay q =
        if 7000 ≤ q then 2 else if 4000 ≤ q then 1 else 0)
    ∧ (∀ q : ℚ, scoreRules_emergencyFundMonths q =
        if 12 ≤ q then 2 else if 6 ≤ q then 1 else 0)
    ∧ (∀ q : ℚ, scoreRules_pipelineActionsPerWeek q =
        if 2 ≤ q then 2 else if 1 ≤ q then 1 else 0)
    ∧ valueOrZero none = (0 : ℚ)
    ∧ weekSubScores (fillAbsentZero e) = weekSubScores e
    ∧ (deriveWeek st e).2.totalScore = (weekSubScores e).sum
    ∧ (deriveWeek st { e with incomeJPY := v }).2.totalScore
        = (deriveWeek st e).2.totalScore := by
  refine ⟨fun q => rfl, fun q => rfl, fun q => ?_, fun q => rfl, fun q => rfl,
    fun q => rfl, fun q => rfl, fun q => rfl, rfl, ?_, ?_, ?_⟩
  · have : (0.5 : ℚ) = (1 / 2 : ℚ) := by norm_num
    rw [scoreRules_realContactsPerWeek, this]
  · simp [weekSubScores, fillAbsentZero, valueOrZero]
  · rw [deriveWeek_totalScore]
    simp [weekSubScores, List.sum_cons, List.sum_nil]
    omega
  · rw [deriveWeek_totalScore, deriveWeek_totalScore]

/-- Whether `item` is a structured record (a non-null, non-array object). -/
def isRecordJS : JSValue → Bool
  | JSValue.obj _ => true
  | _ => false

/-- Whether `v` is a string value. -/
def isStringJS : JSValue → Bool
  | JSValue.str _ => true
  | _ => false

/-- The acceptance condition `parseStoredEntries` imposes on one element:
a structured record whose `weekStart` is a string. -/
def goodElem (item : JSValue) : Bool :=
  isRecordJS item && isStringJS (getField item "weekStart")

theorem sanitizeItem_isSome (p : String → JSNum) :
    ∀ item, (sanitizeItem p item).isSome = goodElem item
  | JSValue.undefined => rfl
  | JSValue.null => rfl
  | JSValue.bool b => by cases b <;> rfl
  | JSValue.num n => by
    cases n <;> simp [sanitizeItem, goodElem, isRecordJS, isObjectType]
  | JSValue.str s => by
    simp [sanitizeItem, goodElem, isRecordJS, isObjectType]
  | JSValue.arr items => rfl
  | JSValue.obj fields => by
    cases hw : getField (JSValue.obj fields) "weekStart" <;>
      simp [sanitizeItem, goodElem, isRecordJS, isStringJS, truthy, isObjectType, hw]

theorem sanitizeItem_eq_none_iff (p : String → JSNum) (item : JSValue) :
    sanitizeItem p item = none ↔ goodElem item = false := by
  have h := sanitizeItem_isSome p item
  cases ho : sanitizeItem p item <;> rw [ho] at h <;> simp [← h]

theorem sanitizeAll_eq_none_iff (p : String → JSNum) :
    ∀ l : List JSValue, sanitizeAll p l = none ↔ ∃ x ∈ l, sanitizeItem p x = none
  | [] => by simp [sanitizeAll]
  | a :: t => by
    rw [sanitizeAll]
    cases hfa : sanitizeItem p a with
    | none => simp [hfa]
    | some b =>
      cases hml : sanitizeAll p t with
      | none =>
        obtain ⟨x, hx, hfx⟩ := (sanitizeAll_eq_none_iff p t).mp hml
        exact ⟨fun _ => ⟨x, List.mem_cons_of_mem a hx, hfx⟩, fun _ => rfl⟩
      | some bs =>
        simp [hfa, hml, ← sanitizeAll_eq_none_iff p t]

theorem sanitizeAll_length (p : String → JSNum) :
    ∀ (l : List JSValue) (r : List WeekEntry),
      sanitizeAll p l = some r → r.length = l.length
  | [], r, h => by
    rw [sanitizeAll] at h
    simp [← Option.some_inj.mp h]
  | a :: t, r, h => by
    rw [sanitizeAll] at h
    cases hfa : sanitizeItem p a with
    | none => rw [hfa] at h; exact absurd h (by simp)
    | some b =>
      rw [hfa] at h
      cases hml : sanitizeAll p t with
      | none => rw [hml] at h; exact absurd h (by simp)
      | some bs =>
        rw [hml] at h
        have hr : r = b :: bs := Option.some_inj.mp h.symm
        subst hr
        simp [sanitizeAll_length p t bs hml]

/-- C4: the sanitizer rejects exactly when the input is not an array, or
some element is not a structured record, or some element's `weekStart` is
not a string — never for any other reason; and on success it returns the
full element-wise sanitized batch sorted ascending by `weekStart` under
lexicographic string comparison. -/
theorem c4_sanitize_reject_or_sort (p : String → JSNum) (raw : JSValue) :
    (parseStoredEntries p raw = none ↔
      (∀ items, raw ≠ JSValue.arr items) ∨
        ∃ items, raw = JSValue.arr items ∧ ∃ item, item ∈ items ∧ goodElem item = false)
    ∧ (∀ items batch es, raw = JSValue.arr items →
        sanitizeAll p items = some batch →
        parseStoredEntries p raw = some es →
        es = sortEntries batch ∧ es.Pairwise entryLeP ∧ es.Perm batch
          ∧ batch.length = items.length) := by
  constructor
  · cases raw with
    | arr items =>
      rw [parseStoredEntries]
      simp only [Option.map_eq_none']
      rw [sanitizeAll_eq_none_iff]
      constructor
      · rintro ⟨x, hx, hfx⟩
        exact Or.inr ⟨items, rfl, x, hx, (sanitizeItem_eq_none_iff p x).mp hfx⟩
      · rintro (h | ⟨items₂, heq, x, hx, hbad⟩)
        · exact absurd rfl (h items)
        · cases heq
          exact ⟨x, hx, (sanitizeItem_eq_none_iff p x).mpr hbad⟩
    | undefined => simp [parseStoredEntries]
    | null => simp [parseStoredEntries]
    | bool b => simp [parseStoredEntries]
    | num n => simp [parseStoredEntries]
    | str s => simp [parseStoredEntries]
    | obj fields => simp [parseStoredEntries]
  · rintro items batch es rfl hbatch hes
    rw [parseStoredEntries, hbatch, Option.map_some'] at hes
    have hes' : es = sortEntries batch := (Option.some_inj.mp hes).symm
    subst hes'
    refine ⟨rfl, ?_, ?_, sanitizeAll_length _ items batch hbatch⟩
    · exact List.sorted_insertionSort entryLeP batch
    · exact List.perm_insertionSort entryLeP batch

/-- A model of `Number(string)` that never yields a finite value; concrete
witnesses below never reach the string-parse path. -/
def noParse : String → JSNum :=
  fun _ => JSNum.nan

/-- The entry produced by the sanitizer from a record carrying only a
`weekStart`. -/
def blankEntry (w : String) : WeekEntry :=
  { weekStart := w, deepWorkH := none, playH := none, realContactsPerWeek := none,
    sleepScore := none, alcoholDeviationPerWeek := none, avgStepsPerDay := none,
    emergencyFundMonths := none, pipelineActionsPerWeek := none, incomeJPY := none,
    manualRedFlag := some false, paymentRedFlag := some false, notes := some "" }

/-- Two well-formed records in descending `weekStart` order. -/
def c4Items : List JSValue :=
  [JSValue.obj [("weekStart", JSValue.str "2024-02-05")],
   JSValue.obj [("weekStart", JSValue.str "2024-01-29")]]

/-- The element-wise sanitized batch of `c4Items`. -/
def c4Batch : List WeekEntry :=
  [blankEntry "2024-02-05", blankEntry "2024-01-29"]

/-- The sorted output for `c4Items`. -/
def c4Es : List WeekEntry :=
  [blankEntry "2024-01-29", blankEntry "2024-02-05"]

/-- Witness for C4: a concrete two-record batch is accepted in full and
returned sorted. -/
theorem c4_witness :
    c4Es = sortEntries c4Batch ∧ c4Es.Pairwise entryLeP ∧ c4Es.Perm c4Batch
      ∧ c4Batch.length = c4Items.length :=
  (c4_sanitize_reject_or_sort noParse (JSValue.arr c4Items)).2 c4Items c4Batch c4Es rfl
    (by decide) (by decide)

theorem sanitizeItem_notes (p : String → JSNum) (item : JSValue) (e : WeekEntry)
    (h : sanitizeItem p item = some e) :
    e.notes = some
      (match getField item "notes" with
       | JSValue.str s => s
       | _ => "") := by
  rw [sanitizeItem] at h
  split at h
  · exact absurd h (by simp)
  · split at h
    · rw [← Option.some_inj.mp h]
    · exact absurd h (by simp)

/-- C5: per-field coercion leniency of the sanitizer. Finite numbers pass
through; non-finite numbers, and all other non-string non-number values,
become absent; strings are trimmed then parsed, kept only when non-empty
and finite. Native booleans pass through; "true"/"false" strings match
case-insensitively; anything else falls back to generic truthiness, with
absent/undefined giving false. Notes pass through iff a string, else
become empty. No malformed field ever causes rejection of the batch. -/
theorem c5_coercion_leniency (p : String → JSNum) (item : JSValue) (e : WeekEntry)
    (hitem : sanitizeItem p item = some e) :
    (∀ q, toNumericValue p (JSValue.num (JSNum.finite q)) = some q)
    ∧ toNumericValue p (JSValue.num JSNum.nan) = none
    ∧ toNumericValue p (JSValue.num JSNum.posInf) = none
    ∧ toNumericValue p (JSValue.num JSNum.negInf) = none
    ∧ (∀ s, toNumericValue p (JSValue.str s) =
        (if jsTrim s = "" then none
         else
           match p (jsTrim s) with
           | JSNum.finite q => some q
           | _ => none))
    ∧ toNumericValue p JSValue.undefined = none
    ∧ toNumericValue p JSValue.null = none
    ∧ (∀ b, toNumericValue p (JSValue.bool b) = none)
    ∧ (∀ items, toNumericValue p (JSValue.arr items) = none)
    ∧ (∀ fields, toNumericValue p (JSValue.obj fields) = none)
    ∧ (∀ b, toBooleanValue (JSValue.bool b) = b)
    ∧ (∀ s, jsToLower (jsTrim s) = "true" → toBooleanValue (JSValue.str s) = true)
    ∧ (∀ s, jsToLower (jsTrim s) = "false" → toBooleanValue (JSValue.str s) = false)
    ∧ (∀ s, jsToLower (jsTrim s) ≠ "true" → jsToLower (jsTrim s) ≠ "false" →
        toBooleanValue (JSValue.str s) = truthy (JSValue.str s))
    ∧ (∀ v, (∀ b, v ≠ JSValue.bool b) → (∀ s, v ≠ JSValue.str s) →
        toBooleanValue v = truthy v)
    ∧ toBooleanValue JSValue.undefined = false
    ∧ (∀ s, getField item "notes" = JSValue.str s → e.notes = some s)
    ∧ ((∀ s, getField item "notes" ≠ JSValue.str s) → e.notes = some "")
    ∧ (∀ items₂, (∀ x ∈ items₂, goodElem x = true) →
        (parseStoredEntries p (JSValue.arr items₂)).isSome = true) := by
  refine ⟨fun q => rfl, rfl, rfl, rfl, fun s => rfl, rfl, rfl, fun b => rfl,
    fun items => rfl, fun fields => rfl, fun b => rfl, ?_, ?_, ?_, ?_, rfl, ?_, ?_, ?_⟩
  · intro s hs
    simp [toBooleanValue, hs]
  · intro s hs
    by_cases ht : jsToLower (jsTrim s) = "true"
    · rw [ht] at hs; exact absurd hs (by decide)
    · simp [toBooleanValue, ht, hs]
  · intro s ht hf
    simp [toBooleanValue, ht, hf]
  · intro v hb hs
    cases v with
    | bool b => exact absurd rfl (hb b)
    | str s => exact absurd rfl (hs s)
    | undefined => rfl
    | null => rfl
    | num n => rfl
    | arr items => rfl
    | obj fields => rfl
  · intro s hsnotes
    rw [sanitizeItem_notes p item e hitem, hsnotes]
  · intro hnostr
    rw [sanitizeItem_notes p item e hitem]
    cases hg : getField item "notes" with
    | str s => exact absurd hg (hnostr s)
    | undefined => rfl
    | null => rfl
    | bool b => rfl
    | num n => rfl
    | arr items => rfl
    | obj fields => rfl
  · intro items₂ hgood
    rw [parseStoredEntries]
    cases hs : sanitizeAll p items₂ with
    | none =>
      obtain ⟨x, hx, hfx⟩ := (sanitizeAll_eq_none_iff p items₂).mp hs
      have hbad := (sanitizeItem_eq_none_iff p x).mp hfx
      rw [hgood x hx] at hbad
      exact absurd hbad (by decide)
    | some bs => rw [Option.map_some']; rfl

/-- A record with a `weekStart` and one blank-string numeric field. -/
def c5Item : JSValue :=
  JSValue.obj [("weekStart", JSValue.str "2024-03-04"), ("deepWorkH", JSValue.str "  ")]

/-- Witness for C5 at concrete inputs: a finite number passes through, a
case-insensitive "TRUE" string parses as a boolean, absent notes become
empty, and a batch whose only malformation is a blank numeric string is
accepted. -/
theorem c5_witness :
    toNumericValue noParse (JSValue.num (JSNum.finite 3)) = some 3
    ∧ toBooleanValue (JSValue.str " TRUE ") = true
    ∧ (blankEntry "2024-03-04").notes = some ""
    ∧ (parseStoredEntries noParse (JSValue.arr [c5Item])).isSome = true := by
  have H := c5_coercion_leniency noParse c5Item (blankEntry "2024-03-04") (by decide)
  obtain ⟨h1, -, -, -, -, -, -, -, -, -, -, htrue, -, -, -, -, -, hnotes, hnorej⟩ := H
  refine ⟨h1 3, htrue " TRUE " (by decide), ?_, hnorej [c5Item] (by decide)⟩
  exact hnotes (fun s hcontra => by rw [show getField c5Item "notes" = JSValue.undefined from rfl] at hcontra; cases hcontra)

/-- The JSON value of an optional numeric field as seen through
`getField` (an omitted key reads as `undefined`). -/
def jsOfOptNum : Option ℚ → JSValue
  | some q => JSValue.num (JSNum.finite q)
  | none => JSValue.undefined

/-- The JSON value of an optional boolean field as seen through
`getField`. -/
def jsOfOptBool : Option Bool → JSValue
  | some b => JSValue.bool b
  | none => JSValue.undefined

/-- The JSON value of an optional string field as seen through
`getField`. -/
def jsOfOptStr : Option String → JSValue
  | some s => JSValue.str s
  | none => JSValue.undefined

theorem getField_obj (fields : List (String × JSValue)) (name : String) :
    getField (JSValue.obj fields) name =
      (match fields.find? (fun f => f.1 == name) with
       | some f => f.2
       | none => JSValue.undefined) :=
  rfl

theorem find?_numFieldJS_eq (n : String) (v : Option ℚ) :
    (numFieldJS n v).find? (fun f => f.1 == n) =
      v.map (fun q => (n, JSValue.num (JSNum.finite q))) := by
  cases v <;> simp [numFieldJS]

theorem find?_numFieldJS_ne (n m : String) (v : Option ℚ) (h : (n == m) = false) :
    (numFieldJS n v).find? (fun f => f.1 == m) = none := by
  cases v <;> simp [numFieldJS, h]

theorem find?_boolFieldJS_eq (n : String) (v : Option Bool) :
    (boolFieldJS n v).find? (fun f => f.1 == n) =
      v.map (fun b => (n, JSValue.bool b)) := by
  cases v <;> simp [boolFieldJS]

theorem find?_boolFieldJS_ne (n m : String) (v : Option Bool) (h : (n == m) = false) :
    (boolFieldJS n v).find? (fun f => f.1 == m) = none := by
  cases v <;> simp [boolFieldJS, h]

theorem find?_strFieldJS_eq (n : String) (v : Option String) :
    (strFieldJS n v).find? (fun f => f.1 == n) =
      v.map (fun s => (n, JSValue.str s)) := by
  cases v <;> simp [strFieldJS]

theorem find?_strFieldJS_ne (n m : String) (v : Option String) (h : (n == m) = false) :
    (strFieldJS n v).find? (fun f => f.1 == m) = none := by
  cases v <;> simp [strFieldJS, h]

theorem getField_entryToJS_weekStart (e : WeekEntry) :
    getField (entryToJS e) "weekStart" = JSValue.str e.weekStart :=
  rfl

theorem getField_entryToJS_deepWorkH (e : WeekEntry) :
    getField (entryToJS e) "deepWorkH" = jsOfOptNum e.deepWorkH := by
  rw [entryToJS, getField_obj]
  simp [List.find?_cons, List.find?_append, find?_numFieldJS_eq, find?_numFieldJS_ne,
    find?_boolFieldJS_eq, find?_boolFieldJS_ne, find?_strFieldJS_eq, find?_strFieldJS_ne,
    Option.none_or, Option.or_none]
  cases e.deepWorkH <;> rfl

theorem getField_entryToJS_playH (e : WeekEntry) :
    getField (entryToJS e) "playH" = jsOfOptNum e.playH := by
  rw [entryToJS, getField_obj]
  simp [List.find?_cons, List.find?_append, find?_numFieldJS_eq, find?_numFieldJS_ne,
    find?_boolFieldJS_eq, find?_boolFieldJS_ne, find?_strFieldJS_eq, find?_strFieldJS_ne,
    Option.none_or, Option.or_none]
  cases e.playH <;> rfl

theorem getField_entryToJS_realContactsPerWeek (e : WeekEntry) :
    getField (entryToJS e) "realContactsPerWeek" = jsOfOptNum e.realContactsPerWeek := by
  rw [entryToJS, getField_obj]
  simp [List.find?_cons, List.find?_append, find?_numFieldJS_eq, find?_numFieldJS_ne,
    find?_boolFieldJS_eq, find?_boolFieldJS_ne, find?_strFieldJS_eq, find?_strFieldJS_ne,
    Option.none_or, Option.or_none]
  cases e.realContactsPerWeek <;> rfl

theorem getField_entryToJS_sleepScore (e : WeekEntry) :
    getField (entryToJS e) "sleepScore" = jsOfOptNum e.sleepScore := by
  rw [entryToJS, getField_obj]
  simp [List.find?_cons, List.find?_append, find?_numFieldJS_eq, find?_numFieldJS_ne,
    find?_boolFieldJS_eq, find?_boolFieldJS_ne, find?_strFieldJS_eq, find?_strFieldJS_ne,
    Option.none_or, Option.or_none]
  cases e.sleepScore <;> rfl

theorem getField_entryToJS_alcoholDeviationPerWeek (e : WeekEntry) :
    getField (entryToJS e) "alcoholDeviationPerWeek" = jsOfOptNum e.alcoholDeviationPerWeek := by
  rw [entryToJS, getField_obj]
  simp [List.find?_cons, List.find?_append, find?_numFieldJS_eq, find?_numFieldJS_ne,
    find?_boolFieldJS_eq, find?_boolFieldJS_ne, find?_strFieldJS_eq, find?_strFieldJS_ne,
    Option.none_or, Option.or_none]
  cases e.alcoholDeviationPerWeek <;> rfl

theorem getField_entryToJS_avgStepsPerDay (e : WeekEntry) :
    getField (entryToJS e) "avgStepsPerDay" = jsOfOptNum e.avgStepsPerDay := by
  rw [entryToJS, getField_obj]
  simp [List.find?_cons, List.find?_append, find?_numFieldJS_eq, find?_numFieldJS_ne,
    find?_boolFieldJS_eq, find?_boolFieldJS_ne, find?_strFieldJS_eq, find?_strFieldJS_ne,
    Option.none_or, Option.or_none]
  cases e.avgStepsPerDay <;> rfl

theorem getField_entryToJS_emergencyFundMonths (e : WeekEntry) :
    getField (entryToJS e) "emergencyFundMonths" = jsOfOptNum e.emergencyFundMonths := by
  rw [entryToJS, getField_obj]
  simp [List.find?_cons, List.find?_append, find?_numFieldJS_eq, find?_numFieldJS_ne,
    find?_boolFieldJS_eq, find?_boolFieldJS_ne, find?_strFieldJS_eq, find?_strFieldJS_ne,
    Option.none_or, Option.or_none]
  cases e.emergencyFundMonths <;> rfl

theorem getField_entryToJS_pipelineActionsPerWeek (e : WeekEntry) :
    getField (entryToJS e) "pipelineActionsPerWeek" = jsOfOptNum e.pipelineActionsPerWeek := by
  rw [entryToJS, getField_obj]
  simp [List.find?_cons, List.find?_append, find?_numFieldJS_eq, find?_numFieldJS_ne,
    find?_boolFieldJS_eq, find?_boolFieldJS_ne, find?_strFieldJS_eq, find?_strFieldJS_ne,
    Option.none_or, Option.or_none]
  cases e.pipelineActionsPerWeek <;> rfl

theorem getField_entryToJS_incomeJPY (e : WeekEntry) :
    getField (entryToJS e) "incomeJPY" = jsOfOptNum e.incomeJPY := by
  rw [entryToJS, getField_obj]
  simp [List.find?_cons, List.find?_append, find?_numFieldJS_eq, find?_numFieldJS_ne,
    find?_boolFieldJS_eq, find?_boolFieldJS_ne, find?_strFieldJS_eq, find?_strFieldJS_ne,
    Option.none_or, Option.or_none]
  cases e.incomeJPY <;> rfl

theorem getField_entryToJS_manualRedFlag (e : WeekEntry) :
    getField (entryToJS e) "manualRedFlag" = jsOfOptBool e.manualRedFlag := by
  rw [entryToJS, getField_obj]
  simp [List.find?_cons, List.find?_append, find?_numFieldJS_eq, find?_numFieldJS_ne,
    find?_boolFieldJS_eq, find?_boolFieldJS_ne, find?_strFieldJS_eq, find?_strFieldJS_ne,
    Option.none_or, Option.or_none]
  cases e.manualRedFlag <;> rfl

theorem getField_entryToJS_paymentRedFlag (e : WeekEntry) :
    getField (entryToJS e) "paymentRedFlag" = jsOfOptBool e.paymentRedFlag := by
  rw [entryToJS, getField_obj]
  simp [List.find?_cons, List.find?_append, find?_numFieldJS_eq, find?_numFieldJS_ne,
    find?_boolFieldJS_eq, find?_boolFieldJS_ne, find?_strFieldJS_eq, find?_strFieldJS_ne,
    Option.none_or, Option.or_none]
  cases e.paymentRedFlag <;> rfl

theorem getField_entryToJS_notes (e : WeekEntry) :
    getField (entryToJS e) "notes" = jsOfOptStr e.notes := by
  rw [entryToJS, getField_obj]
  simp [List.find?_cons, List.find?_append, find?_numFieldJS_eq, find?_numFieldJS_ne,
    find?_boolFieldJS_eq, find?_boolFieldJS_ne, find?_strFieldJS_eq, find?_strFieldJS_ne,
    Option.none_or, Option.or_none]
  cases e.notes <;> rfl

theorem toNumericValue_jsOfOptNum (p : String → JSNum) (v : Option ℚ) :
    toNumericValue p (jsOfOptNum v) = v := by
  cases v <;> rfl

theorem toBooleanValue_jsOfOptBool (v : Option Bool) :
    toBooleanValue (jsOfOptBool v) = v.getD false := by
  cases v <;> rfl

theorem sanitizeItem_entryToJS (p : String → JSNum) (e : WeekEntry) :
    sanitizeItem p (entryToJS e) = some (normalizeEntry e) := by
  have hcond : (!truthy (entryToJS e) || !isObjectType (entryToJS e)) = false := rfl
  rw [sanitizeItem, hcond]
  simp only [Bool.false_eq_true, if_false, getField_entryToJS_weekStart]
  rw [getField_entryToJS_deepWorkH, getField_entryToJS_playH,
    getField_entryToJS_realContactsPerWeek, getField_entryToJS_sleepScore,
    getField_entryToJS_alcoholDeviationPerWeek, getField_entryToJS_avgStepsPerDay,
    getField_entryToJS_emergencyFundMonths, getField_entryToJS_pipelineActionsPerWeek,
    getField_entryToJS_incomeJPY, getField_entryToJS_manualRedFlag,
    getField_entryToJS_paymentRedFlag, getField_entryToJS_notes]
  rw [toNumericValue_jsOfOptNum, toNumericValue_jsOfOptNum, toNumericValue_jsOfOptNum,
    toNumericValue_jsOfOptNum, toNumericValue_jsOfOptNum, toNumericValue_jsOfOptNum,
    toNumericValue_jsOfOptNum, toNumericValue_jsOfOptNum, toNumericValue_jsOfOptNum,
    toBooleanValue_jsOfOptBool, toBooleanValue_jsOfOptBool]
  cases hn : e.notes <;> simp [normalizeEntry, jsOfOptStr, hn]

theorem sanitizeAll_entryToJS (p : String → JSNum) :
    ∀ entries : List WeekEntry,
      sanitizeAll p (entries.map entryToJS) = some (entries.map normalizeEntry)
  | [] => rfl
  | e :: t => by
    rw [List.map_cons, sanitizeAll, sanitizeItem_entryToJS,
      sanitizeAll_entryToJS p t, List.map_cons]

/-- C7: the sanitizer round-trips the persisted/export representation: on
the JSON serialize-then-parse image of any sequence of well-typed entries
it succeeds and returns the sorted original, modulo normalization of
absent fields (absent numerics stay absent, absent booleans become false,
absent notes become the empty string, as `normalizeEntry` states). -/
theorem c7_round_trip (p : String → JSNum) (entries : List WeekEntry) :
    parseStoredEntries p (JSValue.arr (entries.map entryToJS))
      = some (sortEntries (entries.map normalizeEntry)) := by
  rw [parseStoredEntries, sanitizeAll_entryToJS, Option.map_some']

/-- C9 (divergence witness): deleting from a one-entry collection is a
no-op, and the loader substitutes the fresh default when sanitization
yields an empty result — but the import path performs no emptiness check:
importing a valid empty array (`[]`) replaces the working collection with
the empty collection, violating the never-empty invariant. -/
theorem c9_import_empties_collection :
    handleDeleteEntry [blankEntry "2024-01-01"] 0 = [blankEntry "2024-01-01"]
    ∧ loadEntries noParse (blankEntry "2024-01-01") (some (JSValue.arr []))
        = [blankEntry "2024-01-01"]
    ∧ parseStoredEntries noParse (JSValue.arr []) = some []
    ∧ handleImport [blankEntry "2024-01-01"] noParse (JSValue.arr []) = []
    ∧ (handleImport [blankEntry "2024-01-01"] noParse (JSValue.arr [])).length = 0 := by
  refine ⟨by decide, by decide, by decide, by decide, by decide⟩

/-- C10: entries with equal `weekStart` are never deduplicated — the
sanitizer keeps a batch of the input's length, `computeDerivedWeeks` keeps
one output per input entry, and two adjacent sorted entries with the same
`weekStart` and both with sleep score ≤ 4 (absence-as-zero) make the
streak counter treat them as two consecutive weeks, flagging the
later-positioned one. -/
theorem c10_duplicates_kept (p : String → JSNum)
    (items : List JSValue) (batch : List WeekEntry)
    (hbatch : sanitizeAll p items = some batch)
    (entries : List WeekEntry) (i : Nat)
    (h : i + 1 < (sortEntries entries).length)
    (hdup : ((sortEntries entries).get ⟨i, Nat.lt_of_succ_lt h⟩).weekStart
        = ((sortEntries entries).get ⟨i + 1, h⟩).weekStart)
    (hlow1 : sleepLowWeek ((sortEntries entries).get ⟨i, Nat.lt_of_succ_lt h⟩) = true)
    (hlow2 : sleepLowWeek ((sortEntries entries).get ⟨i + 1, h⟩) = true) :
    batch.length = items.length
    ∧ (computeDerivedWeeks entries).length = entries.length
    ∧ ((computeDerivedWeeks entries)[i + 1]?).map (fun d => d.autoFlags.sleep)
        = some true := by
  have hlen : (computeDerivedWeeks entries).length = entries.length := by
    rw [computeDerivedWeeks, length_deriveFrom, sortEntries, List.length_insertionSort]
  refine ⟨sanitizeAll_length p items batch hbatch, hlen, ?_⟩
  have hlen₂ : (computeDerivedWeeks entries).length = (sortEntries entries).length := by
    rw [computeDerivedWeeks, length_deriveFrom]
  have hb : i + 1 < (computeDerivedWeeks entries).length := by rw [hlen₂]; exact h
  rw [List.getElem?_eq_getElem hb, Option.map_some']
  have hflag := deriveFrom_flag sleepLowWeek 2 Streaks.sleep (fun d => d.autoFlags.sleep)
    (fun _ _ => rfl) (fun _ _ => rfl) (sortEntries entries) ⟨0, 0, 0⟩ (i + 1) hb
  rw [streaks_zero_sleep, foldl_streakStep_eq_tailRun] at hflag
  show some ((deriveFrom ⟨0, 0, 0⟩ (sortEntries entries)).get ⟨i + 1, hb⟩).autoFlags.sleep
      = some true
  rw [hflag]
  have htake₂ : (sortEntries entries).take (i + 1 + 1) =
      (sortEntries entries).take (i + 1) ++ [(sortEntries entries).get ⟨i + 1, h⟩] := by
    rw [List.take_succ, List.getElem?_eq_getElem h]
    rfl
  have htake₁ : (sortEntries entries).take (i + 1) =
      (sortEntries entries).take i ++
        [(sortEntries entries).get ⟨i, Nat.lt_of_succ_lt h⟩] := by
    rw [List.take_succ, List.getElem?_eq_getElem (Nat.lt_of_succ_lt h)]
    rfl
  rw [htake₂, tailRun_concat, hlow2, if_pos rfl, htake₁, tailRun_concat, hlow1, if_pos rfl]
  simp

/-- Two records sharing one `weekStart`. -/
def c10Items : List JSValue :=
  [JSValue.obj [("weekStart", JSValue.str "2024-01-01")],
   JSValue.obj [("weekStart", JSValue.str "2024-01-01")]]

/-- Two identical entries for the same week (absent sleep score counts as
zero, hence low). -/
def c10Dup : List WeekEntry :=
  [blankEntry "2024-01-01", blankEntry "2024-01-01"]

/-- Witness for C10 at a concrete duplicated week. -/
theorem c10_witness :
    c10Dup.length = c10Items.length
    ∧ (computeDerivedWeeks c10Dup).length = c10Dup.length
    ∧ ((computeDerivedWeeks c10Dup)[1]?).map (fun d => d.autoFlags.sleep) = some true :=
  c10_duplicates_kept noParse c10Items c10Dup (by decide) c10Dup 0 (by decide)
    (by decide) (by decide) (by decide)

end Scorecard
